import Mathlib

/-!
Verification development for the Dionaea honeypot log processor
(`process_dionaea.py`).  The Python source is shallowly embedded below:
pure functions become Lean functions, the filesystem state touched by a run
(log file, cursor file, line-hash file, event-store files, attacks.json)
becomes an explicit `World` record, and a run is a function
`World → World × outputs`.  Machine-level details that the claims do not
depend on are modelled as follows and noted at each definition:
MD5 line hashing is modelled as an injective function (the identity on the
line's characters); Python's arbitrary set iteration order is refined to
insertion order; file mtimes are integers; byte offsets are character
counts (all inputs considered are ASCII).
-/

namespace Dionaea

/-- Geolocation result record, mirroring the dict returned by
`get_location` (fields country, city, lat, lon).  Latitude/longitude are
integers here; the claims never depend on fractional coordinates. -/
structure Loc where
  country : String
  city : String
  lat : Int
  lon : Int
deriving DecidableEq, Repr

/-- Raw response of the external GeoIP capability, mirroring
`geoip_reader.city(ip)`: each field may be missing (`None`), in which case
`get_location` substitutes a default. -/
structure GeoResp where
  country : Option String
  city : Option String
  lat : Option Int
  lon : Option Int
deriving DecidableEq, Repr

/-- The external geolocation capability: absent (`self.geoip_reader` is
`None`) or a lookup function; a `none` result of the lookup models the
exception path of `geoip_reader.city`. -/
def GeoCap : Type := Option (String → Option GeoResp)

/-- An attack event dict as built in `parse_dionaea_log` (lines 700-710 of
the source). -/
structure Attack where
  timestamp : String
  src_ip : String
  src_port : String
  dst_port : String
  service : String
  country : String
  city : String
  lat : Int
  lon : Int
deriving DecidableEq, Repr

/-- `strStarts p s` holds when the string `s` starts with `p`
(Python `s.startswith(p)`), on character lists. -/
def strStarts : List Char → List Char → Bool
  | [], _ => true
  | _ :: _, [] => false
  | a :: as, b :: bs => a == b && strStarts as bs

/-- Embeds `ip.startswith(('192.168.', '10.', '172.16.', '127.', '0.0.0.0'))`
from `get_location` (line 68). -/
def isSkippedIp (ip : String) : Bool :=
  ["192.168.", "10.", "172.16.", "127.", "0.0.0.0"].any
    (fun p => strStarts p.data ip.data)

/-- Embeds `get_location` (lines 65-83).  The second component records
whether the external geolocation capability was consulted
(`self.geoip_reader.city(ip)` reached).  A `none` lookup result models the
`except` branch. -/
def get_location (geo : GeoCap) (ip : String) : Loc × Bool :=
  if isSkippedIp ip then
    (⟨"Private/Local", "Local Network", 0, 0⟩, false)
  else
    match geo with
    | none => (⟨"Unknown", "Unknown", 0, 0⟩, false)
    | some f =>
      match f ip with
      | some r =>
        (⟨r.country.getD "Unknown", r.city.getD "Unknown",
          r.lat.getD 0, r.lon.getD 0⟩, true)
      | none => (⟨"Unknown", "Unknown", 0, 0⟩, true)

/-- The `port_map` dict of `guess_service_from_port` (lines 87-95). -/
def port_map : List (String × String) :=
  [("21", "ftp"), ("22", "ssh"), ("23", "telnet"), ("25", "smtp"),
   ("53", "dns"), ("80", "http"), ("110", "pop3"), ("135", "epmap"),
   ("139", "netbios"), ("143", "imap"), ("443", "https"), ("445", "smb"),
   ("993", "imaps"), ("995", "pop3s"), ("1433", "mssql"), ("3306", "mysql"),
   ("3389", "rdp"), ("5060", "sip"), ("1723", "pptp"), ("5000", "upnp"),
   ("11211", "memcache"), ("27017", "mongo"), ("1883", "mqtt"),
   ("631", "printer"), ("69", "tftp")]

/-- Embeds `guess_service_from_port` (lines 85-96): dict lookup with the
`port-<N>` default. -/
def guess_service_from_port (port : String) : String :=
  match port_map.lookup port with
  | some s => s
  | none => "port-" ++ port

/-!
A small backtracking regular-expression interpreter covering exactly the
constructs used by the two connection patterns of `parse_dionaea_log`
(lines 676-680): literal characters, single-character classes (`\d`, `.`),
greedy star (`.*`, and `\d+` as one `\d` followed by a greedy digit star),
lazy star (`.*?`), and numbered capturing groups.  Matching follows
Python `re` semantics: backtracking with greedy stars trying the longest
repetition first and lazy stars the shortest, and `re.search` trying
start offsets left to right.
-/

/-- One token of a regular expression. -/
inductive RTok where
  | lit : Char → RTok
  | cls : (Char → Bool) → RTok
  | starG : (Char → Bool) → RTok
  | starL : (Char → Bool) → RTok
  | openG : Nat → RTok
  | closeG : Nat → RTok

/-- Capture bookkeeping during a match: the stack of currently open groups
(each with the suffix of the subject at which it opened) and the finished
captures. -/
structure ReSt where
  openGs : List (Nat × List Char)
  done : List (Nat × List Char)

/-- Backtracking matcher: tries to match the token list `ts` against a
leading portion of `s` (the remainder of the subject is not required to
be consumed, exactly as with Python `re.search`).  Recursion is driven by
a fuel parameter so that the definition is structurally recursive and
kernel-reducible; every recursive call strictly decreases the
lexicographic measure on `(s.length, ts.length)` (stars consume a
character before self-recursing), so the call depth never exceeds
`(s.length + 1) * (ts0.length + 1)` where `ts0` is the original pattern
(every token list in the recursion is a suffix of `ts0` or has a star of
`ts0` in head position); `reSearch` below supplies that much fuel, making
the `fuel = 0` branch unreachable. -/
def reM : Nat → List RTok → List Char → ReSt → Option ReSt
  | 0, _, _, _ => none
  | _ + 1, [], _, st => some st
  | _ + 1, RTok.lit _ :: _, [], _ => none
  | fuel + 1, RTok.lit c :: ts', x :: s', st =>
    if x == c then reM fuel ts' s' st else none
  | _ + 1, RTok.cls _ :: _, [], _ => none
  | fuel + 1, RTok.cls p :: ts', x :: s', st =>
    if p x then reM fuel ts' s' st else none
  | fuel + 1, RTok.starG _ :: ts', [], st => reM fuel ts' [] st
  | fuel + 1, RTok.starG p :: ts', x :: s', st =>
    if p x then
      match reM fuel (RTok.starG p :: ts') s' st with
      | some r => some r
      | none => reM fuel ts' (x :: s') st
    else reM fuel ts' (x :: s') st
  | fuel + 1, RTok.starL p :: ts', s, st =>
    (match reM fuel ts' s st with
     | some r => some r
     | none =>
       match s with
       | [] => none
       | x :: s' =>
         if p x then reM fuel (RTok.starL p :: ts') s' st else none)
  | fuel + 1, RTok.openG i :: ts', s, st =>
    reM fuel ts' s ⟨(i, s) :: st.openGs, st.done⟩
  | fuel + 1, RTok.closeG _ :: ts', s, st =>
    match st.openGs with
    | [] => none
    | (j, saved) :: rest =>
      reM fuel ts' s ⟨rest, (j, saved.take (saved.length - s.length)) :: st.done⟩

/-- `re.search`: try a match starting at each offset, left to right;
returns the captures of the first (leftmost) match. -/
def reSearch (ts : List RTok) (s : List Char) :
    Option (List (Nat × List Char)) :=
  match reM ((s.length + 1) * (ts.length + 1)) ts s ⟨[], []⟩ with
  | some st => some st.done
  | none =>
    match s with
    | [] => none
    | _ :: s' => reSearch ts s'

/-- Captured text of group `i` (`match.group(i)`); the patterns below
always close every group they open, so on a successful search the lookup
succeeds. -/
def getGroup (caps : List (Nat × List Char)) (i : Nat) : List Char :=
  (caps.lookup i).getD []

/-- `\d` character class. -/
def isDig (c : Char) : Bool := c.isDigit

/-- Python `.` (matches every character except a newline). -/
def notNL (c : Char) : Bool := c != '\n'

/-- A sequence of literal tokens for a literal fragment of a pattern. -/
def lits (s : String) : List RTok := s.data.map RTok.lit

/-- `(\d{2})` capturing group `i`. -/
def grpDD (i : Nat) : List RTok :=
  [RTok.openG i, RTok.cls isDig, RTok.cls isDig, RTok.closeG i]

/-- `(\d{4})` capturing group `i`. -/
def grpY (i : Nat) : List RTok :=
  [RTok.openG i, RTok.cls isDig, RTok.cls isDig, RTok.cls isDig,
   RTok.cls isDig, RTok.closeG i]

/-- `(\d{2}:\d{2}:\d{2})` capturing group `i`. -/
def grpTime (i : Nat) : List RTok :=
  [RTok.openG i, RTok.cls isDig, RTok.cls isDig, RTok.lit ':',
   RTok.cls isDig, RTok.cls isDig, RTok.lit ':',
   RTok.cls isDig, RTok.cls isDig, RTok.closeG i]

/-- `\d+` (greedy): one digit then a greedy digit star. -/
def digPlus : List RTok := [RTok.cls isDig, RTok.starG isDig]

/-- `(\d+\.\d+\.\d+\.\d+)` capturing group `i`. -/
def grpIp (i : Nat) : List RTok :=
  [RTok.openG i] ++ digPlus ++ [RTok.lit '.'] ++ digPlus ++ [RTok.lit '.']
    ++ digPlus ++ [RTok.lit '.'] ++ digPlus ++ [RTok.closeG i]

/-- `(\d+)` capturing group `i`. -/
def grpNum (i : Nat) : List RTok :=
  [RTok.openG i] ++ digPlus ++ [RTok.closeG i]

/-- The shared timestamp head of both connection patterns:
`\[(\d{2})(\d{2})(\d{4}) (\d{2}:\d{2}:\d{2})\]`. -/
def tsHead : List RTok :=
  [RTok.lit '['] ++ grpDD 1 ++ grpDD 2 ++ grpY 3 ++ [RTok.lit ' ']
    ++ grpTime 4 ++ [RTok.lit ']']

/-- First connection pattern of `parse_dionaea_log` (line 678):
`\[(\d{2})(\d{2})(\d{4}) (\d{2}:\d{2}:\d{2})\].*connection.*from.*?(\d+\.\d+\.\d+\.\d+).*?to.*?:(\d+)`. -/
def connPattern1 : List RTok :=
  tsHead ++ [RTok.starG notNL] ++ lits "connection" ++ [RTok.starG notNL]
    ++ lits "from" ++ [RTok.starL notNL] ++ grpIp 5
    ++ [RTok.starL notNL] ++ lits "to" ++ [RTok.starL notNL]
    ++ [RTok.lit ':'] ++ grpNum 6

/-- Value of a decimal digit string (`int(...)` on a group that the
pattern guarantees is all digits). -/
def digitsToNat (cs : List Char) : Nat :=
  cs.foldl (fun acc c => acc * 10 + (c.toNat - 48)) 0

/-- Zero-pad a number below 100 to two digits, as `datetime.isoformat`
renders months, days, hours, minutes and seconds. -/
def pad2 (n : Nat) : String :=
  if n < 10 then "0" ++ toString n else toString n

/-- Zero-pad a year to four digits, as `datetime.isoformat` renders it. -/
def pad4 (n : Nat) : String :=
  if n < 10 then "000" ++ toString n
  else if n < 100 then "00" ++ toString n
  else if n < 1000 then "0" ++ toString n
  else toString n

/-- Python `calendar` leap-year rule used by `datetime`. -/
def isLeap (y : Nat) : Bool :=
  y % 4 == 0 && (y % 100 != 0 || y % 400 == 0)

/-- Days in a month, per Python `datetime`. -/
def daysInMonth (y m : Nat) : Nat :=
  if m == 2 then (if isLeap y then 29 else 28)
  else if m == 4 || m == 6 || m == 9 || m == 11 then 30
  else 31

/-- Embeds `datetime.datetime(year, month, day, h, mi, s).isoformat()`
with the constructor's range validation: a `ValueError` (out-of-range
field) becomes `none`, which `parse_dionaea_log` turns into trying the
next pattern (the `except: continue` at lines 716-720). -/
def mkDatetimeIso (y mo d h mi s : Nat) : Option String :=
  if 1 ≤ y && y ≤ 9999 && 1 ≤ mo && mo ≤ 12 && 1 ≤ d && d ≤ daysInMonth y mo
      && h ≤ 23 && mi ≤ 59 && s ≤ 59 then
    some (pad4 y ++ "-" ++ pad2 mo ++ "-" ++ pad2 d ++ "T"
      ++ pad2 h ++ ":" ++ pad2 mi ++ ":" ++ pad2 s)
  else none

/-- Second connection pattern of `parse_dionaea_log` (line 679):
`\[(\d{2})(\d{2})(\d{4}) (\d{2}:\d{2}:\d{2})\].*accept.*from.*?(\d+\.\d+\.\d+\.\d+).*on.*?(\d+)`. -/
def connPattern2 : List RTok :=
  tsHead ++ [RTok.starG notNL] ++ lits "accept" ++ [RTok.starG notNL]
    ++ lits "from" ++ [RTok.starL notNL] ++ grpIp 5
    ++ [RTok.starG notNL] ++ lits "on" ++ [RTok.starL notNL] ++ grpNum 6

/-- One pattern attempt, embedding the body of the
`for pattern in patterns` loop of `parse_dionaea_log` (lines 682-720): on
a regex match, convert the captured groups (`int(...)` conversions and
the `time_str` slices), build the datetime, derive the service label and
location, and assemble the attack dict.  A datetime `ValueError` yields
`none` (the `except ... continue` makes the loop try the next pattern). -/
def tryPattern (geo : GeoCap) (pat : List RTok) (line : List Char) :
    Option Attack :=
  match reSearch pat line with
  | none => none
  | some caps =>
    let day := digitsToNat (getGroup caps 1)
    let month := digitsToNat (getGroup caps 2)
    let year := digitsToNat (getGroup caps 3)
    let t := getGroup caps 4
    let hh := digitsToNat (t.take 2)
    let mi := digitsToNat ((t.drop 3).take 2)
    let ss := digitsToNat ((t.drop 6).take 2)
    let srcIp : String := ⟨getGroup caps 5⟩
    let dstPort : String := ⟨getGroup caps 6⟩
    match mkDatetimeIso year month day hh mi ss with
    | none => none
    | some ts =>
      let loc := (get_location geo srcIp).1
      some { timestamp := ts, src_ip := srcIp, src_port := "unknown",
             dst_port := dstPort,
             service := guess_service_from_port dstPort,
             country := loc.country, city := loc.city,
             lat := loc.lat, lon := loc.lon }

/-- Extraction of one log line: the two connection patterns are tried in
order, first success wins (the `break` at line 714); a line where both
fail (or where a match dies on the datetime check) produces no attack. -/
def extractAttack (geo : GeoCap) (line : List Char) : Option Attack :=
  match tryPattern geo connPattern1 line with
  | some a => some a
  | none => tryPattern geo connPattern2 line

/-!
Filesystem model.  A `World` holds the pieces of on-disk state a run reads
and writes: the log file (content and mtime), the cursor file
`processed_dionaea.log` (content and mtime), the line-hash file
`processed_hashes.txt`, the persistent event-store primary/backup pair and
`attacks.json`.  MD5 line hashing is modelled as an injective function
(the identity on the line's characters) and the hash file as the list of
stored hash values; Python's arbitrary set iteration order is refined to
insertion order.
-/

/-- Parsed content of a JSON store file: a JSON list (the current
format), a JSON object carrying an `attacks` list (the old format read by
`data.get('attacks', [])`), or bytes that `json.load` rejects — including
a truncated or partially written file. -/
inductive JContent where
  | jlist : List Attack → JContent
  | jdict : List Attack → JContent
  | jbad : JContent
deriving DecidableEq, Repr

/-- The persistent event-store file pair:
`persistent_attacks.json` and `persistent_attacks_backup.json`
(`none` = file absent). -/
structure StoreFS where
  primary : Option JContent
  backup : Option JContent
deriving DecidableEq, Repr

/-- The on-disk state a run touches. `log` is the log file's characters
(`none` = absent); `cursor` is the cursor file (`none` = absent,
`some none` = unparsable content, `some (some n)` = the integer `n`);
`hashFile` is the stored line-hash list; `attacksJson` is `attacks.json`
(`none` = absent, `some none` = unparsable, `some (some l)` = the list).
Mtimes are integers. -/
structure World where
  log : Option (List Char)
  logMtime : Int
  cursor : Option (Option Nat)
  cursorMtime : Int
  hashFile : Option (List (List Char))
  db : StoreFS
  attacksJson : Option (Option (List Attack))
deriving DecidableEq

/-- `f.readlines()` / iterating a file: split into lines, each keeping its
trailing newline (a last line without a newline is kept as is). -/
def splitLinesAux (cs : List Char) (acc : List Char) : List (List Char) :=
  match cs with
  | [] => if acc.isEmpty then [] else [acc.reverse]
  | c :: rest =>
    if c == '\n' then (acc.reverse ++ ['\n']) :: splitLinesAux rest []
    else splitLinesAux rest (c :: acc)

/-- All lines of a file content. -/
def splitLines (cs : List Char) : List (List Char) := splitLinesAux cs []

/-- Embeds `load_persistent_attacks` (lines 392-426).  The whole body sits
in one `try`: a parse failure anywhere returns the `[]` the function
started with; the backup branch is an `elif` on the *existence* of the
primary, so it only runs when the primary file is absent. -/
def load_persistent_attacks (db : StoreFS) : List Attack :=
  match db.primary with
  | some (JContent.jlist l) => l
  | some (JContent.jdict l) => l
  | some JContent.jbad => []
  | none =>
    match db.backup with
    | some (JContent.jlist l) => l
    | some (JContent.jdict l) => l
    | some JContent.jbad => []
    | none => []

/-- Embeds the attack-loading part of `load_existing_data`
(lines 457-467): the persistent store is consulted first and
`attacks.json` is the fallback only when it yielded a *non-empty* list is
false (`if persistent_attacks:` is Python truthiness, i.e. non-empty). An
unparsable `attacks.json` raises inside the surrounding `try`, leaving the
initial `[]`. -/
def load_existing_attacks (w : World) : List Attack :=
  let p := load_persistent_attacks w.db
  if p.isEmpty then
    match w.attacksJson with
    | some (some l) => l
    | _ => []
  else p

/-- Embeds `get_last_processed_position` (the overriding definition at
lines 571-597): absent cursor file gives 0; a log older than the cursor
file gives 0; an unparsable cursor gives 0; a stored offset larger than
the current log size gives 0; otherwise the stored offset. -/
def get_last_processed_position (w : World) : Nat :=
  match w.cursor with
  | none => 0
  | some c =>
    if w.log.isSome && decide (w.logMtime < w.cursorMtime) then 0
    else
      match c with
      | none => 0
      | some n =>
        match w.log with
        | some s => if n > s.length then 0 else n
        | none => n

/-- Embeds `detect_log_rotation` (lines 502-535): absent log means
rotated; a recorded position beyond a log smaller than 1000 bytes means
rotated; a log mtime more than one hour newer than the cursor file's
means rotated. -/
def detect_log_rotation (w : World) : Bool :=
  match w.log with
  | none => true
  | some s =>
    let lastPos := get_last_processed_position w
    if lastPos > s.length && s.length < 1000 then true
    else
      match w.cursor with
      | some _ => decide (w.logMtime - w.cursorMtime > 3600)
      | none => false

/-- Embeds `save_processed_position` (lines 493-500): the cursor file is
rewritten with the integer and its mtime becomes the current time. -/
def save_processed_position (w : World) (pos : Nat) (now : Int) : World :=
  { w with cursor := some (some pos), cursorMtime := now }

/-- Embeds `clear_old_log_data` (lines 537-569): when the log is both
larger than 5,000,000 bytes and longer than 50,000 lines, it is rewritten
in place keeping only its last 50,000 lines, the cursor is reset to zero
and the hash file is deleted; otherwise nothing changes. -/
def clear_old_log_data (w : World) (now : Int) : World :=
  match w.log with
  | none => w
  | some s =>
    if s.length > 5000000 then
      let lines := splitLines s
      if lines.length > 50000 then
        { w with
          log := some (lines.drop (lines.length - 50000)).flatten,
          logMtime := now,
          cursor := some (some 0), cursorMtime := now,
          hashFile := none }
      else w
    else w

/-- The per-line loop of `parse_dionaea_log` (lines 657-723) over the
lines read from the effective start position: a line whose hash is
already recorded is skipped unless a rotation was detected this run;
otherwise the patterns are tried and every line's hash is recorded
(lines 713 and 723; the hash set is modelled as a list in insertion
order, adding only when absent). Returns the extracted attacks in line
order together with the final hash list. -/
def processLines (geo : GeoCap) (lines : List (List Char))
    (rotated : Bool) (hs : List (List Char)) :
    List Attack × List (List Char) :=
  match lines with
  | [] => ([], hs)
  | l :: ls =>
    if !rotated && hs.contains l then processLines geo ls rotated hs
    else
      let hs' := if hs.contains l then hs else hs ++ [l]
      match extractAttack geo l with
      | some a =>
        let r := processLines geo ls rotated hs'
        (a :: r.1, r.2)
      | none => processLines geo ls rotated hs'

/-- The hash-list trim before persisting (lines 730-731): keep only the
most recent 10,000 entries. -/
def trimHashes (hs : List (List Char)) : List (List Char) :=
  if hs.length > 10000 then hs.drop (hs.length - 10000) else hs

/-- Result of `parse_dionaea_log`: the newly extracted attacks, the
world after the side effects on cursor and hash files, the effective
byte offset extraction started from, and the rotation signal. -/
structure ParseOut where
  attacks : List Attack
  world : World
  startPos : Nat
  rotated : Bool
deriving DecidableEq

/-- Embeds `parse_dionaea_log` (lines 599-748).  Control flow: detect
rotation; if the log is absent, reset the cursor and return no attacks;
on rotation, reset the cursor and delete the hash file; compute the
start position (0 when not incremental); load the carried-forward hashes
(only when the hash file exists, incremental mode is on and no rotation
was seen); re-validate the position against the file size (lines
646-651, clearing the hashes on reset); process the lines from the start
position; finally, in incremental mode, save the end-of-file position
and the trimmed hash list. -/
def parse_dionaea_log (geo : GeoCap) (w : World) (now : Int)
    (incremental : Bool) : ParseOut :=
  let rotated := detect_log_rotation w
  match w.log with
  | none => ⟨[], save_processed_position w 0 now, 0, rotated⟩
  | some s =>
    let w1 :=
      if rotated then
        { save_processed_position w 0 now with hashFile := none }
      else w
    let last0 := if incremental then get_last_processed_position w1 else 0
    let hashes0 :=
      if w1.hashFile.isSome && incremental && !rotated then
        w1.hashFile.getD []
      else []
    let fileSize := s.length
    let last1 := if last0 > fileSize then 0 else last0
    let hashes1 := if last0 > fileSize then [] else hashes0
    let r := processLines geo (splitLines (s.drop last1)) rotated hashes1
    let currentPos := fileSize
    if incremental then
      let w2 := save_processed_position w1 currentPos now
      ⟨r.1, { w2 with hashFile := some (trimHashes r.2) }, last1, rotated⟩
    else
      ⟨r.1, w1, last1, rotated⟩

/-- The dedup signature `f"{timestamp}_{src_ip}_{dst_port}"` built in
`process_logs` (lines 766 and 775). -/
def sigKey (a : Attack) : String :=
  a.timestamp ++ "_" ++ a.src_ip ++ "_" ++ a.dst_port

/-- Python string `<=`, used to model the stable ascending sort by the
`timestamp` key (`sorted(..., key=lambda x: x['timestamp'])`):
lexicographic comparison of the character sequences. -/
def charLe : List Char → List Char → Bool
  | [], _ => true
  | _ :: _, [] => false
  | a :: as, b :: bs =>
    if a < b then true else if b < a then false else charLe as bs

/-- The comparison `sorted` uses on two attack dicts. -/
def tsLe (a b : Attack) : Bool := charLe a.timestamp.data b.timestamp.data

/-- The same comparison as a (decidable) relation. -/
def tsLeP (a b : Attack) : Prop := tsLe a b = true

instance decTsLeP : DecidableRel tsLeP :=
  fun a b => instDecidableEqBool (tsLe a b) true

/-- The Event Store merge of `process_logs` (lines 763-791): keep only
new attacks whose signature is absent from the existing ones, append,
sort ascending by timestamp, keep the last 2,000.  Python's `sorted` is a
stable sort by the given key; `List.insertionSort` with the total
preorder `tsLeP` is a stable sort as well (`orderedInsert` puts an
element before every equal one of the already-sorted later elements),
hence the same function on every input. -/
def mergeAttacks (existing newAtks : List Attack) : List Attack :=
  let sigs := existing.map sigKey
  let trulyNew := newAtks.filter (fun a => !sigs.contains (sigKey a))
  let allAtks := existing ++ trulyNew
  (List.insertionSort tsLeP allAtks).drop (allAtks.length - 2000)

/-- The new attacks that survive the signature filter (lines 772-777);
`summary['new_attacks_this_run']` is their count. -/
def trulyNewAttacks (existing newAtks : List Attack) : List Attack :=
  newAtks.filter (fun a => !(existing.map sigKey).contains (sigKey a))

/-- Final filesystem effect of `save_persistent_attacks` (lines 428-445):
the current primary (when present) is copied to the backup path, then the
new list is written directly to the primary path. -/
def save_persistent_attacks (db : StoreFS) (atks : List Attack) : StoreFS :=
  let db1 := if db.primary.isSome then { db with backup := db.primary } else db
  { db1 with primary := some (JContent.jlist atks) }

/-- Result of a full run of `process_logs`. -/
structure RunOut where
  world : World
  newThisRun : Nat
  storeSaved : List Attack
  attacksArtifact : List Attack
deriving DecidableEq

/-- Embeds `process_logs` (lines 750-857) up to the artifact writes the
claims are about: load the existing attacks, parse new ones, filter by
signature, clear old log data, merge-sort-trim, save the persistent
store, and write `attacks.json` with the last 1,000 merged attacks. -/
def process_logs (geo : GeoCap) (w : World) (now : Int)
    (incremental : Bool) : RunOut :=
  let existing := if incremental then load_existing_attacks w else []
  let p := parse_dionaea_log geo w now incremental
  let trulyNew := trulyNewAttacks existing p.attacks
  let w2 := clear_old_log_data p.world now
  let atks := mergeAttacks existing p.attacks
  let w3 := { w2 with db := save_persistent_attacks w2.db atks }
  let artifact := atks.drop (atks.length - 1000)
  let w4 := { w3 with attacksJson := some (some artifact) }
  ⟨w4, trulyNew.length, atks, artifact⟩

/-!
Crash-trace models.  To settle the crash-safety claims, the two save
operations are additionally embedded as the sequence of observable
on-disk states they pass through, so that "interrupting the write" can be
expressed as stopping at an intermediate state.
-/

/-- The intermediate on-disk states of `save_persistent_attacks`
(lines 428-445): after the backup copy (`shutil.copy2`, line 434); after
`open(self.persistent_db_path, 'w')` truncated the primary but before
`json.dump` finished (the file is unparsable then); and after the dump
completed.  The code never touches a temporary path and performs no
rename. -/
structure SaveTrace where
  afterBackup : StoreFS
  midWrite : StoreFS
  final : StoreFS
deriving DecidableEq

/-- The state sequence of one `save_persistent_attacks` call. -/
def save_persistent_attacks_trace (db : StoreFS) (atks : List Attack) :
    SaveTrace :=
  let db1 :=
    if db.primary.isSome then { db with backup := db.primary } else db
  ⟨db1,
   { db1 with primary := some JContent.jbad },
   { db1 with primary := some (JContent.jlist atks) }⟩

/-- One snapshot artifact's files: its canonical path and the
hypothetical `<name>.tmp` path next to it. -/
structure ArtifactFS where
  main : Option JContent
  tmp : Option JContent
deriving DecidableEq

/-- The intermediate states of `save_json_file` (lines 859-868): after
`open(filepath, 'w')` truncated the canonical file and after `json.dump`
finished.  The temporary path is never created. -/
structure ArtTrace where
  midWrite : ArtifactFS
  final : ArtifactFS
deriving DecidableEq

/-- The state sequence of one `save_json_file` call. -/
def save_json_file_trace (fs : ArtifactFS) (d : JContent) : ArtTrace :=
  ⟨⟨some JContent.jbad, fs.tmp⟩, ⟨some d, fs.tmp⟩⟩

/-- Completed effect of one `save_json_file` call given whether its body
raised: the body is wrapped in `try/except` that prints the error and
returns normally, so the call always completes; on failure the canonical
file may be left truncated or partial (modelled `jbad`) and the error is
reported (`true`). -/
def save_json_file (ok : Bool) (d : JContent) (cur : Option JContent) :
    Option JContent × Bool :=
  if ok then (some d, false) else (some JContent.jbad, true)

/-- The artifact-writing phase of `process_logs` (lines 840-845): the
five artifacts are written one after the other; because every
`save_json_file` call catches its own exceptions, the sequence always
runs to completion.  Input: per artifact, whether its write succeeds,
its data and its current file state.  Output: final file states and the
number of errors reported. -/
def write_artifacts :
    List (Bool × JContent × Option JContent) →
    List (Option JContent) × Nat
  | [] => ([], 0)
  | (ok, d, cur) :: rest =>
    let r := save_json_file ok d cur
    let rs := write_artifacts rest
    (r.1 :: rs.1, (if r.2 then 1 else 0) + rs.2)

/-!
Shared helper definitions and lemmas for the theorems below.
-/

/-- No two attacks of the list share the identity key
`(timestamp, source IP, destination port)`, i.e. the `sigKey` signature. -/
def noDupKeysB : List Attack → Bool
  | [] => true
  | a :: as => as.all (fun b => sigKey a != sigKey b) && noDupKeysB as

theorem noDupKeysB_iff (l : List Attack) :
    noDupKeysB l = true ↔ l.Pairwise (fun a b => sigKey a ≠ sigKey b) := by
  induction l with
  | nil => simp [noDupKeysB]
  | cons a as ih =>
    rw [noDupKeysB, Bool.and_eq_true, List.all_eq_true, List.pairwise_cons,
      ih]
    constructor
    · rintro ⟨h1, h2⟩
      exact ⟨fun b hb => bne_iff_ne.mp (h1 b hb), h2⟩
    · rintro ⟨h1, h2⟩
      exact ⟨fun b hb => bne_iff_ne.mpr (h1 b hb), h2⟩

theorem length_drop_sub_le (l : List α) (k : Nat) :
    (l.drop (l.length - k)).length ≤ k := by
  simp only [List.length_drop]
  omega

theorem mergeAttacks_length_le (existing newAtks : List Attack) :
    (mergeAttacks existing newAtks).length ≤ 2000 := by
  unfold mergeAttacks
  have h := (List.perm_insertionSort tsLeP
    (existing ++ newAtks.filter
      (fun a => !(existing.map sigKey).contains (sigKey a)))).length_eq
  simp only [List.length_drop, h]
  omega

theorem trimHashes_length_le (hs : List (List Char)) :
    (trimHashes hs).length ≤ 10000 := by
  unfold trimHashes
  split
  · simp only [List.length_drop]
    omega
  · omega

/-- A concrete attack event (the one extracted from the C9 scenario
line). -/
def atk33 : Attack :=
  { timestamp := "2024-03-15T10:22:31", src_ip := "45.142.212.33",
    src_port := "unknown", dst_port := "22", service := "ssh",
    country := "Unknown", city := "Unknown", lat := 0, lon := 0 }

/-- A second concrete attack event, one second later from a different
source address. -/
def atk34 : Attack :=
  { timestamp := "2024-03-15T10:22:32", src_ip := "45.142.212.34",
    src_port := "unknown", dst_port := "22", service := "ssh",
    country := "Unknown", city := "Unknown", lat := 0, lon := 0 }

/-!
Claim C1 — the dedup invariant of the Event Store merge.
-/

/-- Claim C1 is false as stated: the merge of `process_logs` filters the
newly extracted events only against the keys of the *existing* events
(lines 763-777), so when two newly extracted events of the same run share
the identity key both are kept.  Here the merge of an empty store with a
batch containing the same event twice persists both copies. -/
theorem merge_dedup_counterexample :
    noDupKeysB (mergeAttacks [] [atk33, atk33]) = false := by decide

/-- Claim C1 (amended): the merge never lets a kept newly-extracted event
share an identity key with a pre-existing event; hence if the existing
store has pairwise-distinct identity keys and the newly extracted batch
has pairwise-distinct identity keys, the merged, sorted and truncated
store has pairwise-distinct identity keys. -/
theorem merge_dedup_amended (existing newAtks : List Attack)
    (hex : noDupKeysB existing = true)
    (hnew : noDupKeysB newAtks = true) :
    noDupKeysB (mergeAttacks existing newAtks) = true := by
  rw [noDupKeysB_iff] at hex hnew ⊢
  unfold mergeAttacks
  have hfilter : List.Pairwise (fun a b => sigKey a ≠ sigKey b)
      (newAtks.filter
        (fun a => !(existing.map sigKey).contains (sigKey a))) :=
    hnew.sublist (List.filter_sublist _)
  have happend : List.Pairwise (fun a b => sigKey a ≠ sigKey b)
      (existing ++ newAtks.filter
        (fun a => !(existing.map sigKey).contains (sigKey a))) := by
    rw [List.pairwise_append]
    refine ⟨hex, hfilter, ?_⟩
    intro a ha b hb
    have hbmem := List.of_mem_filter hb
    intro heq
    have : sigKey b ∈ existing.map sigKey := by
      rw [← heq]
      exact List.mem_map_of_mem sigKey ha
    rw [Bool.not_eq_true', ← Bool.not_eq_true] at hbmem
    exact hbmem (List.contains_iff_exists_mem_beq.mpr
      ⟨sigKey b, this, by simp⟩)
  have hperm := List.perm_insertionSort tsLeP
    (existing ++ newAtks.filter
      (fun a => !(existing.map sigKey).contains (sigKey a)))
  have hsorted := (hperm.pairwise_iff (fun h => Ne.symm h)).mpr happend
  exact hsorted.sublist (List.drop_sublist _ _)

/-- Witness for the amended C1 theorem on concrete stores. -/
theorem merge_dedup_amended_witness :
    noDupKeysB [atk33] = true ∧ noDupKeysB [atk34] = true ∧
      noDupKeysB (mergeAttacks [atk33] [atk34]) = true :=
  ⟨by decide, by decide,
    merge_dedup_amended [atk33] [atk34] (by decide) (by decide)⟩

/-!
Claim C2 — crash safety of the Event Store persist.
-/

/-- Claim C2 is false as stated: `save_persistent_attacks` uses no
temporary path and no rename; after the backup copy the primary itself is
truncated and rewritten in place, so interrupting the write mid-way
leaves the primary unparsable, and the prior contents are then not
loadable (the load returns the empty store). -/
theorem store_persist_counterexample :
    (save_persistent_attacks_trace
        ⟨some (JContent.jlist [atk33]), none⟩ [atk34]).midWrite.primary
        = some JContent.jbad ∧
    load_persistent_attacks
        (save_persistent_attacks_trace
          ⟨some (JContent.jlist [atk33]), none⟩ [atk34]).midWrite = [] ∧
    load_persistent_attacks ⟨some (JContent.jlist [atk33]), none⟩
        = [atk33] := by decide

/-- Claim C2 (amended): every persist first copies the current primary
(when one exists) to the backup path and then writes the new content
directly to the primary path — no temporary file, no verification, no
rename.  A completed persist leaves the new list in the primary and the
prior content in the backup; an interruption between the truncation and
the completed write leaves the primary unparsable, in which state a load
returns the empty store (the prior content survives only in the backup,
which the load does not consult while the primary file exists). -/
theorem store_persist_amended (db : StoreFS) (atks : List Attack)
    (h : db.primary.isSome = true) :
    (save_persistent_attacks_trace db atks).afterBackup.backup = db.primary ∧
    (save_persistent_attacks_trace db atks).midWrite.primary
      = some JContent.jbad ∧
    load_persistent_attacks
      (save_persistent_attacks_trace db atks).midWrite = [] ∧
    (save_persistent_attacks_trace db atks).final.primary
      = some (JContent.jlist atks) ∧
    (save_persistent_attacks_trace db atks).final.backup = db.primary ∧
    save_persistent_attacks db atks
      = (save_persistent_attacks_trace db atks).final := by
  simp [save_persistent_attacks_trace, save_persistent_attacks,
    load_persistent_attacks, h]

/-- Witness for the amended C2 theorem on a concrete store. -/
theorem store_persist_amended_witness :
    (⟨some (JContent.jlist [atk33]), none⟩ : StoreFS).primary.isSome = true ∧
    save_persistent_attacks ⟨some (JContent.jlist [atk33]), none⟩ [atk34]
      = (save_persistent_attacks_trace
          ⟨some (JContent.jlist [atk33]), none⟩ [atk34]).final :=
  ⟨by decide,
    (store_persist_amended ⟨some (JContent.jlist [atk33]), none⟩ [atk34]
      (by decide)).2.2.2.2.2⟩

/-!
Claim C3 — the load fallback chain.
-/

/-- Claim C3 names a real code bug: becauses the backup branch of
`load_persistent_attacks` is an `elif` on the *existence* of the primary
file (line 411), an unparsable primary does not fall back to the backup —
the exception is caught and the empty store is returned, even though a
perfectly good backup exists.  The code's own comment (line 410, "Try
backup if main fails or is empty") and the spec agree that the backup
should have been read. -/
theorem load_corrupt_primary_ignores_backup :
    load_persistent_attacks
      ⟨some JContent.jbad, some (JContent.jlist [atk33])⟩ = [] := by rfl

/-!
Claim C4 — snapshot artifact writes.
-/

/-- Claim C4 is false as stated: `save_json_file` writes directly to the
canonical path — the temporary `<name>.tmp` path is never created, there
is no verification and no rename, and mid-write the canonical file holds
neither the old nor the new artifact. -/
theorem artifact_write_counterexample :
    (save_json_file_trace ⟨some (JContent.jlist [atk33]), none⟩
        (JContent.jlist [atk34])).midWrite.main = some JContent.jbad ∧
    (save_json_file_trace ⟨some (JContent.jlist [atk33]), none⟩
        (JContent.jlist [atk34])).midWrite.main
        ≠ some (JContent.jlist [atk33]) ∧
    (save_json_file_trace ⟨some (JContent.jlist [atk33]), none⟩
        (JContent.jlist [atk34])).midWrite.tmp = none ∧
    (save_json_file_trace ⟨some (JContent.jlist [atk33]), none⟩
        (JContent.jlist [atk34])).final.tmp = none := by decide

/-- Claim C4 (amended): each artifact is serialized directly to its
canonical file (truncate then write, so an interruption can corrupt that
artifact); a failed write is reported and does not abort the remaining
artifact writes — every artifact write in the sequence happens, the
result for each artifact depends only on its own outcome, and every
failure is reported. -/
theorem artifact_writes_amended
    (jobs : List (Bool × JContent × Option JContent)) :
    (write_artifacts jobs).1.length = jobs.length ∧
    (∀ i, (write_artifacts jobs).1.get? i
      = (jobs.get? i).map (fun j => (save_json_file j.1 j.2.1 j.2.2).1)) ∧
    (write_artifacts jobs).2 = jobs.countP (fun j => !j.1) := by
  induction jobs with
  | nil => simp [write_artifacts]
  | cons j rest ih =>
    obtain ⟨ih1, ih2, ih3⟩ := ih
    obtain ⟨ok, d, cur⟩ := j
    refine ⟨by simp [write_artifacts, ih1], ?_, ?_⟩
    · intro i
      cases i with
      | zero => simp [write_artifacts]
      | succ i => simpa [write_artifacts] using ih2 i
    · simp only [write_artifacts, List.countP_cons, ih3, save_json_file]
      cases ok <;> simp <;> omega

/-!
Claim C5 — the size bounds.
-/

theorem parse_hashFile_cases (geo : GeoCap) (w : World) (now : Int)
    (incremental : Bool) :
    (parse_dionaea_log geo w now incremental).world.hashFile = w.hashFile ∨
    (parse_dionaea_log geo w now incremental).world.hashFile = none ∨
    ∃ h, (parse_dionaea_log geo w now incremental).world.hashFile = some h
      ∧ h.length ≤ 10000 := by
  unfold parse_dionaea_log
  cases w.log with
  | none => left; rfl
  | some s =>
    cases incremental with
    | true =>
      right; right
      exact ⟨_, rfl, trimHashes_length_le _⟩
    | false =>
      by_cases hrot : detect_log_rotation w = true
      · right; left
        simp [hrot]
      · left
        simp [hrot]

theorem clear_hashFile_cases (w : World) (now : Int) :
    (clear_old_log_data w now).hashFile = w.hashFile ∨
    (clear_old_log_data w now).hashFile = none := by
  unfold clear_old_log_data
  cases w.log with
  | none => left; rfl
  | some s =>
    simp only
    split
    · split
      · right; rfl
      · left; rfl
    · left; rfl

/-- Claim C5: for every prior state and log content, the persisted Event
Store holds at most 2,000 events, the emitted attack-list artifact holds
at most 1,000 events, and any line-hash set the run persists holds at
most 10,000 entries (the run either leaves the hash file alone, deletes
it, or writes a trimmed list). -/
theorem bounds_invariant (geo : GeoCap) (w : World) (now : Int)
    (incremental : Bool) :
    (process_logs geo w now incremental).storeSaved.length ≤ 2000 ∧
    (process_logs geo w now incremental).attacksArtifact.length ≤ 1000 ∧
    ((process_logs geo w now incremental).world.hashFile = w.hashFile ∨
     (process_logs geo w now incremental).world.hashFile = none ∨
     ∃ h, (process_logs geo w now incremental).world.hashFile = some h
       ∧ h.length ≤ 10000) := by
  have hstore : (process_logs geo w now incremental).storeSaved
      = mergeAttacks (if incremental then load_existing_attacks w else [])
          (parse_dionaea_log geo w now incremental).attacks := by
    simp only [process_logs]
  have hart : (process_logs geo w now incremental).attacksArtifact
      = (process_logs geo w now incremental).storeSaved.drop
          ((process_logs geo w now incremental).storeSaved.length - 1000) := by
    simp only [process_logs]
  have hhf : (process_logs geo w now incremental).world.hashFile
      = (clear_old_log_data
          (parse_dionaea_log geo w now incremental).world now).hashFile := by
    simp only [process_logs]
  refine ⟨?_, ?_, ?_⟩
  · rw [hstore]
    exact mergeAttacks_length_le _ _
  · rw [hart]
    exact length_drop_sub_le _ _
  · rw [hhf]
    rcases clear_hashFile_cases
        (parse_dionaea_log geo w now incremental).world now with hc | hc
    · rw [hc]
      exact parse_hashFile_cases geo w now incremental
    · right; left; exact hc

/-!
Claim C8 — the private-range short circuit of geolocation.
-/

/-- Modelled from the spec's words (the refinement side of Claim C8): an
IPv4 dotted-quad string lying in a private (10.0.0.0/8, 172.16.0.0/12,
192.168.0.0/16), loopback (127.0.0.0/8) or link-local (169.254.0.0/16)
range. -/
def splitDotAux (cs : List Char) (acc : List Char) : List (List Char) :=
  match cs with
  | [] => [acc.reverse]
  | c :: rest =>
    if c == '.' then acc.reverse :: splitDotAux rest []
    else splitDotAux rest (c :: acc)

/-- The four octets of a dotted-quad IPv4 string, when well formed. -/
def ipOctets (ip : String) : Option (Nat × Nat × Nat × Nat) :=
  match splitDotAux ip.data [] with
  | [a, b, c, d] =>
    if !a.isEmpty && a.all Char.isDigit && !b.isEmpty && b.all Char.isDigit
        && !c.isEmpty && c.all Char.isDigit
        && !d.isEmpty && d.all Char.isDigit then
      let na := digitsToNat a
      let nb := digitsToNat b
      let nc := digitsToNat c
      let nd := digitsToNat d
      if na ≤ 255 && nb ≤ 255 && nc ≤ 255 && nd ≤ 255 then
        some (na, nb, nc, nd)
      else none
    else none
  | _ => none

/-- The spec-side range predicate for Claim C8. -/
def specPrivateLoopbackLinkLocal (ip : String) : Bool :=
  match ipOctets ip with
  | none => false
  | some (a, b, _, _) =>
    a == 10 || (a == 172 && 16 ≤ b && b ≤ 31) || (a == 192 && b == 168)
      || a == 127 || (a == 169 && b == 254)

/-- Claim C8 is false as stated: 169.254.1.1 is a link-local address, yet
`get_location` does not short-circuit it — with a geolocation capability
present the external lookup is consulted and its result returned.  (The
same happens for the private range 172.17.0.0 through 172.31.255.255,
since only the literal text start 172.16. is checked.) -/
theorem private_shortcircuit_counterexample :
    specPrivateLoopbackLinkLocal "169.254.1.1" = true ∧
    (get_location
      (some (fun _ => some ⟨some "Germany", some "Berlin", some 52, some 13⟩))
      "169.254.1.1").2 = true ∧
    (get_location
      (some (fun _ => some ⟨some "Germany", some "Berlin", some 52, some 13⟩))
      "169.254.1.1").1 = ⟨"Germany", "Berlin", 52, 13⟩ := by decide

/-- Claim C8 (amended): exactly the address strings starting with one of
the literal texts 192.168., 10., 172.16., 127., 0.0.0.0 are
short-circuited: for those, `get_location` returns the Private/Local
result and never consults the external capability, whatever that
capability is.  Other private, loopback or link-local addresses (for
example 172.17.0.0 through 172.31.255.255 and 169.254.0.0/16) are looked
up like public addresses. -/
theorem private_shortcircuit_amended (geo : GeoCap) (ip : String)
    (h : isSkippedIp ip = true) :
    get_location geo ip
      = (⟨"Private/Local", "Local Network", 0, 0⟩, false) := by
  unfold get_location
  rw [h]
  rfl

/-- Witness for the amended C8 theorem: 10.0.0.1 with a capability
present. -/
theorem private_shortcircuit_amended_witness :
    isSkippedIp "10.0.0.1" = true ∧
    get_location
        (some (fun _ => some ⟨some "Germany", some "Berlin", some 52, some 13⟩))
        "10.0.0.1"
      = (⟨"Private/Local", "Local Network", 0, 0⟩, false) :=
  ⟨by decide,
    private_shortcircuit_amended
      (some (fun _ => some ⟨some "Germany", some "Berlin", some 52, some 13⟩))
      "10.0.0.1" (by decide)⟩

/-!
Claim C7 — recovery when the log shrinks below the recorded offset.
-/

theorem get_last_zero_of_cursor_zero (w : World)
    (hc : w.cursor = some (some 0)) :
    get_last_processed_position w = 0 := by
  unfold get_last_processed_position
  rw [hc]
  cases hl : w.log with
  | none => simp [hl]
  | some s => by_cases hmt : w.logMtime < w.cursorMtime <;> simp [hl, hmt]

/-- Claim C7: whenever the log file is present with a size strictly
smaller than the offset stored in the cursor file, the next run's
effective read position is zero — `get_last_processed_position` itself
yields 0 (via its size validation or the mtime rule), and whether or not
the rotation heuristic additionally fires, `parse_dionaea_log` starts
extraction at offset 0, i.e. re-reads the file from its start.  The
embedding is total, so no error is raised on this path. -/
theorem rotation_reset_on_smaller_file (geo : GeoCap) (w : World)
    (now : Int) (incremental : Bool) (s : List Char) (n : Nat)
    (hlog : w.log = some s) (hcur : w.cursor = some (some n))
    (hsmall : s.length < n) :
    get_last_processed_position w = 0 ∧
    (parse_dionaea_log geo w now incremental).startPos = 0 := by
  have h1 : get_last_processed_position w = 0 := by
    unfold get_last_processed_position
    rw [hcur, hlog]
    by_cases hmt : w.logMtime < w.cursorMtime
    · simp [hmt]
    · simp [hmt, hsmall]
  refine ⟨h1, ?_⟩
  unfold parse_dionaea_log
  simp only [hlog]
  by_cases hrot : detect_log_rotation w = true
  · have h2 : get_last_processed_position
        { save_processed_position w 0 now with hashFile := none } = 0 :=
      get_last_zero_of_cursor_zero _ rfl
    cases incremental <;> simp [hrot, h2]
  · cases incremental <;> simp [hrot, h1]

/-!
Claim C9 — the concrete single-line extraction scenario.
-/

/-- The single log line of the C9 scenario. -/
def c9Line : List Char :=
  "[15032024 10:22:31] connection from 45.142.212.33 to host:22".data

/-- A fresh world whose log consists only of the C9 line, with no prior
cursor, hash, or store state, and no geolocation capability. -/
def c9World : World :=
  { log := some c9Line, logMtime := 0, cursor := none, cursorMtime := 0,
    hashFile := none, db := ⟨none, none⟩, attacksJson := none }

/-- Claim C9: extracting from a log consisting of the single line
`[15032024 10:22:31] connection from 45.142.212.33 to host:22` with no
geolocation capability yields exactly one attack event with service ssh,
destination port 22, source IP 45.142.212.33, timestamp
2024-03-15T10:22:31 and the non-empty Unknown/Unknown country and city
pair. -/
theorem concrete_scenario_ssh :
    (parse_dionaea_log none c9World 1 true).attacks = [atk33]
      ∧ atk33.service = "ssh" ∧ atk33.dst_port = "22"
      ∧ atk33.src_ip = "45.142.212.33"
      ∧ atk33.timestamp = "2024-03-15T10:22:31"
      ∧ atk33.country = "Unknown" ∧ atk33.city = "Unknown" := by
  refine ⟨?_, rfl, rfl, rfl, rfl, rfl, rfl⟩
  rfl

/-!
Claim C10 — the run's frame effect on the log file itself.
-/

/-- The truncation condition of `clear_old_log_data`: the log is present,
larger than 5,000,000 bytes and longer than 50,000 lines. -/
def logNeedsTrunc : Option (List Char) → Bool
  | none => false
  | some s =>
    decide (5000000 < s.length) && decide (50000 < (splitLines s).length)

theorem parse_log_cursor_etc (geo : GeoCap) (w : World) (now : Int)
    (incremental : Bool) :
    (parse_dionaea_log geo w now incremental).world.log = w.log ∧
    (parse_dionaea_log geo w now incremental).world.db = w.db := by
  unfold parse_dionaea_log
  cases hl : w.log with
  | none => exact ⟨hl, rfl⟩
  | some s =>
    by_cases hrot : detect_log_rotation w = true <;>
      cases incremental <;>
        simp [hl, hrot, save_processed_position]

theorem clear_old_log_data_spec (w : World) (now : Int) :
    ((clear_old_log_data w now).log
      = if logNeedsTrunc w.log then
          some (((splitLines ((w.log).getD [])).drop
            ((splitLines ((w.log).getD [])).length - 50000)).flatten)
        else w.log) ∧
    (if logNeedsTrunc w.log then
        (clear_old_log_data w now).cursor = some (some 0) ∧
        (clear_old_log_data w now).hashFile = none
      else True) ∧
    (clear_old_log_data w now).db = w.db := by
  unfold clear_old_log_data logNeedsTrunc
  cases hl : w.log with
  | none => simp [hl]
  | some s =>
    by_cases h1 : 5000000 < s.length <;>
      by_cases h2 : 50000 < (splitLines s).length <;>
        simp [hl, h1, h2]

/-- Claim C10: the only mutation a run applies to the log file is the one
of `clear_old_log_data`, performed after extraction: when the log
exceeds 5,000,000 bytes and has more than 50,000 lines, it is rewritten
keeping exactly its last 50,000 lines, the cursor is reset to zero and
the line-hash file is deleted; in every other case the run leaves the
log file's contents unchanged. -/
theorem log_frame_effect (geo : GeoCap) (w : World) (now : Int)
    (incremental : Bool) :
    ((process_logs geo w now incremental).world.log
      = if logNeedsTrunc w.log then
          some (((splitLines ((w.log).getD [])).drop
            ((splitLines ((w.log).getD [])).length - 50000)).flatten)
        else w.log) ∧
    (if logNeedsTrunc w.log then
        (process_logs geo w now incremental).world.cursor = some (some 0) ∧
        (process_logs geo w now incremental).world.hashFile = none
      else True) := by
  have hb : (process_logs geo w now incremental).world.log
        = (clear_old_log_data
            (parse_dionaea_log geo w now incremental).world now).log
      ∧ (process_logs geo w now incremental).world.cursor
        = (clear_old_log_data
            (parse_dionaea_log geo w now incremental).world now).cursor
      ∧ (process_logs geo w now incremental).world.hashFile
        = (clear_old_log_data
            (parse_dionaea_log geo w now incremental).world now).hashFile := by
    refine ⟨?_, ?_, ?_⟩ <;> simp only [process_logs]
  have hp := parse_log_cursor_etc geo w now incremental
  have hc := clear_old_log_data_spec
    (parse_dionaea_log geo w now incremental).world now
  rw [hp.1] at hc
  exact ⟨by rw [hb.1]; exact hc.1,
    by
      rcases hc with ⟨-, hc2, -⟩
      by_cases ht : logNeedsTrunc w.log = true
      · rw [if_pos ht]
        rw [if_pos ht] at hc2
        exact ⟨by rw [hb.2.1]; exact hc2.1, by rw [hb.2.2]; exact hc2.2⟩
      · rw [if_neg ht]
        trivial⟩

/-!
Claim C6 — idempotence of a second run over an unchanged log.
-/

/-- First log line of the C6 scenario (newline-terminated). -/
def lineA : List Char :=
  "[15032024 10:22:31] connection from 45.142.212.33 to host:22\n".data

/-- Second log line of the C6 scenario. -/
def lineB : List Char :=
  "[15032024 10:22:32] connection from 45.142.212.34 to host:22\n".data

/-- Starting state of the C6 counterexample: the log holds two matching
lines; the cursor file records the byte offset of the second line (the
first was ingested by an earlier run) and is older than the log (the
second line was appended after it was written); the hash file is absent —
a state the program itself tolerates (its hash-file write failure is a
caught, logged-and-ignored error, and a missing hash file is handled on
every load) — and the store is empty. -/
def c6World : World :=
  { log := some (lineA ++ lineB), logMtime := 100,
    cursor := some (some lineA.length), cursorMtime := 50,
    hashFile := none, db := ⟨none, none⟩, attacksJson := none }

/-- The first run over the C6 log (at time 150). -/
def c6Run1 : RunOut := process_logs none c6World 150 true

/-- The second run, over the unchanged log (at time 200). -/
def c6Run2 : RunOut := process_logs none c6Run1.world 200 true

set_option maxRecDepth 100000 in
/-- Claim C6 is false as stated: between the two runs the log's bytes and
mtime are unchanged and the second run detects no rotation, yet the
second run reports one newly-added event and changes the persisted store.
The cause: because the log's mtime now precedes the cursor file's,
`get_last_processed_position` restarts the second run at offset zero, and
the first line — absent from the carried hash set, which only covers what
the first run read — is re-extracted and is not filtered, since the store
never held its event. -/
theorem second_run_counterexample :
    c6Run1.world.log = c6World.log ∧
    c6Run1.world.logMtime = c6World.logMtime ∧
    detect_log_rotation c6Run1.world = false ∧
    c6Run1.newThisRun = 1 ∧
    c6Run2.newThisRun = 1 ∧
    c6Run2.world.db.primary ≠ c6Run1.world.db.primary := by decide

theorem processLines_skips (geo : GeoCap) (lines hs : List (List Char))
    (h : ∀ l ∈ lines, l ∈ hs) :
    processLines geo lines false hs = ([], hs) := by
  induction lines with
  | nil => rfl
  | cons l ls ih =>
    have hl : hs.contains l = true :=
      List.elem_iff.mpr (h l (List.mem_cons_self l ls))
    unfold processLines
    simp only [Bool.not_false, Bool.true_and, hl, if_true]
    exact ih (fun x hx => h x (List.mem_cons_of_mem l hx))

/-- Claim C6 (amended): a second run over an unchanged log (log present,
cursor file present and newer than the log, as a completed previous run
leaves them) adds zero events and leaves the persisted store unchanged
PROVIDED the carried-forward hash set covers every line of the log and
the stored event list is non-empty, timestamp-sorted and within the
2,000 bound (as a previous run's merge leaves it).  Without the coverage
proviso the run re-reads from offset zero by the mtime rule and may
re-extract and re-add events, as the counterexample shows. -/
theorem second_run_amended (geo : GeoCap) (w : World) (now : Int)
    (s : List Char) (hs : List (List Char)) (c : Option Nat)
    (ex : List Attack)
    (hlog : w.log = some s)
    (hcur : w.cursor = some c)
    (hmt : w.logMtime < w.cursorMtime)
    (hhf : w.hashFile = some hs)
    (hcover : ∀ l ∈ splitLines s, l ∈ hs)
    (hdb : w.db.primary = some (JContent.jlist ex))
    (hne : ex ≠ [])
    (hsorted : ex.Pairwise tsLeP)
    (hlen : ex.length ≤ 2000) :
    detect_log_rotation w = false ∧
    (process_logs geo w now true).newThisRun = 0 ∧
    (process_logs geo w now true).world.db.primary
      = some (JContent.jlist ex) := by
  have hpos : get_last_processed_position w = 0 := by
    unfold get_last_processed_position
    rw [hcur, hlog]
    simp [hmt]
  have hrot : detect_log_rotation w = false := by
    unfold detect_log_rotation
    rw [hlog]
    simp only [hpos, hcur]
    have h36 : ¬ (w.logMtime - w.cursorMtime > 3600) := by omega
    simp [h36]
  have hexist : load_existing_attacks w = ex := by
    unfold load_existing_attacks load_persistent_attacks
    rw [hdb]
    simp [hne]
  have hparse : parse_dionaea_log geo w now true
      = ⟨[], { save_processed_position w s.length now with
               hashFile := some (trimHashes hs) }, 0, false⟩ := by
    unfold parse_dionaea_log
    rw [hlog]
    simp only [hrot, Bool.false_eq_true, if_false, if_true, hpos, hhf,
      Option.isSome_some, Bool.true_and, Bool.not_false, Bool.and_true]
    have hgt : ¬ (0 > s.length) := by omega
    simp only [Option.getD_some, hgt, if_false, List.drop_zero,
      processLines_skips geo (splitLines s) hs hcover]
  have hmerge : mergeAttacks ex [] = ex := by
    unfold mergeAttacks
    simp only [List.filter_nil, List.append_nil]
    rw [List.Sorted.insertionSort_eq hsorted]
    have : ex.length - 2000 = 0 := by omega
    rw [this, List.drop_zero]
  refine ⟨hrot, ?_, ?_⟩
  · have : (process_logs geo w now true).newThisRun
        = (trulyNewAttacks (load_existing_attacks w)
            (parse_dionaea_log geo w now true).attacks).length := by
      simp only [process_logs, if_true]
    rw [this, hparse, hexist]
    rfl
  · have hdbeq : (process_logs geo w now true).world.db
        = save_persistent_attacks
            (clear_old_log_data (parse_dionaea_log geo w now true).world
              now).db
            (mergeAttacks (load_existing_attacks w)
              (parse_dionaea_log geo w now true).attacks) := by
      simp only [process_logs, if_true]
    rw [hdbeq, hparse, hexist]
    have hcleardb := (clear_old_log_data_spec
      (⟨[], { save_processed_position w s.length now with
              hashFile := some (trimHashes hs) }, 0, false⟩
        : ParseOut).world now).2.2
    rw [hcleardb]
    show (save_persistent_attacks w.db (mergeAttacks ex [])).primary
      = some (JContent.jlist ex)
    rw [hmerge]
    unfold save_persistent_attacks
    simp

/-- Concrete world for the C7 witness: a three-character replacement log,
newer than the cursor file, whose stored offset is 10. -/
def c7World : World :=
  { log := some "abc".data, logMtime := 7, cursor := some (some 10),
    cursorMtime := 3, hashFile := none, db := ⟨none, none⟩,
    attacksJson := none }

/-- Witness for the C7 theorem at the concrete world `c7World`. -/
theorem rotation_reset_witness :
    c7World.log = some "abc".data ∧ c7World.cursor = some (some 10) ∧
    "abc".data.length < 10 ∧
    (get_last_processed_position c7World = 0 ∧
     (parse_dionaea_log none c7World 9 true).startPos = 0) :=
  ⟨rfl, rfl, by decide,
    rotation_reset_on_smaller_file none c7World 9 true "abc".data 10 rfl rfl
      (by decide)⟩

/-- Concrete world for the C6 amended witness: a one-line log fully
covered by the hash set, a cursor file newer than the log, and a
singleton sorted store. -/
def c6CoveredWorld : World :=
  { log := some lineA, logMtime := 100,
    cursor := some (some lineA.length), cursorMtime := 150,
    hashFile := some [lineA],
    db := ⟨some (JContent.jlist [atk33]), none⟩,
    attacksJson := none }

/-- Witness for the amended C6 theorem at the concrete world
`c6CoveredWorld`. -/
theorem second_run_amended_witness :
    c6CoveredWorld.log = some lineA ∧
    c6CoveredWorld.cursor = some (some lineA.length) ∧
    c6CoveredWorld.logMtime < c6CoveredWorld.cursorMtime ∧
    c6CoveredWorld.hashFile = some [lineA] ∧
    (∀ l ∈ splitLines lineA, l ∈ [lineA]) ∧
    c6CoveredWorld.db.primary = some (JContent.jlist [atk33]) ∧
    [atk33] ≠ ([] : List Attack) ∧
    List.Pairwise tsLeP [atk33] ∧
    ([atk33] : List Attack).length ≤ 2000 ∧
    (detect_log_rotation c6CoveredWorld = false ∧
     (process_logs none c6CoveredWorld 200 true).newThisRun = 0 ∧
     (process_logs none c6CoveredWorld 200 true).world.db.primary
       = some (JContent.jlist [atk33])) :=
  ⟨rfl, rfl, by decide, rfl, by decide, rfl, by decide, by decide,
    by decide,
    second_run_amended none c6CoveredWorld 200 lineA [lineA]
      (some lineA.length) [atk33] rfl rfl (by decide) rfl (by decide) rfl
      (by decide) (by decide) (by decide)⟩

end Dionaea
